import Mathlib

/-!
Verification of the appraisal route of the nft-appraisal-oracle repository.

The route (src/nft-appraisal-oracle/routes/appraisal.js) is:

  router.post("/", (req, res) => {
    const { nftContent } = req.body;
    if (!nftContent) {
      return res.status(400).json({ error: "NFT content required" });
    }
    const mockScore = (Math.random() * 3 + 7).toFixed(1);
    res.json({
      scores: Array(9).fill(null).map(() => Math.floor(Math.random() * 4) + 7),
      overall: mockScore,
      reason: "Automated local appraisal complete"
    });
  });

We embed the handler as a pure function of the request-body field
nftContent (a JavaScript value) and of the stream of values returned by
successive Math.random calls, modelled as rationals in [0, 1).
Evaluation order of the JavaScript determines which draw feeds which
field: the statement computing mockScore runs before the argument object
of res.json is evaluated, so the overall score consumes the first draw
(index 0), and the nine map callbacks then consume draws 1 through 9 in
index order.
-/

/-- JavaScript values that can appear as the nftContent field of the
parsed JSON request body. Numbers are modelled as rationals, with NaN
as a separate constructor (NaN is not a rational; in JavaScript it is
falsy). Objects and arrays are collapsed to opaque constructors since
the handler only ever tests their truthiness. -/
inductive JSValue where
  | undef : JSValue
  | null : JSValue
  | boolean : Bool → JSValue
  | number : ℚ → JSValue
  | nan : JSValue
  | str : String → JSValue
  | object : JSValue
  | array : JSValue
deriving DecidableEq

/-- JavaScript truthiness, as tested by the guard if (!nftContent).
Falsy values: undefined, null, NaN, false, the number 0 (including -0,
which equals 0 in ℚ), and the empty string; everything else is truthy. -/
def truthy : JSValue → Bool
  | .undef => false
  | .null => false
  | .boolean b => b
  | .number q => q != 0
  | .nan => false
  | .str t => t != ""
  | .object => true
  | .array => true

/-- A stream of results of successive Math.random calls. -/
abbrev RandStream := ℕ → ℚ

/-- The Math.random contract: every draw lies in [0, 1). -/
def UnitInterval (s : RandStream) : Prop := ∀ i, 0 ≤ s i ∧ s i < 1

/-- ECMAScript Number.prototype.toFixed with fractionDigits = 1, for a
nonnegative argument, returned as an integer count of tenths: the
integer n for which n / 10 is as close to x as possible, the larger n
winning ties — that is the floor of 10·x + 1/2. -/
def toFixed1 (x : ℚ) : ℤ := (10 * x + 1 / 2).floor

/-- The tenths count of mockScore: (Math.random() * 3 + 7).toFixed(1)
applied to the draw r. -/
def mockScoreTenths (r : ℚ) : ℤ := toFixed1 (r * 3 + 7)

/-- The decimal number the overall string parses to. -/
def mockScoreValue (r : ℚ) : ℚ := (mockScoreTenths r : ℚ) / 10

/-- The overall field itself: the string produced by toFixed(1) —
integer part, a dot, one fractional digit. -/
def mockScoreString (r : ℚ) : String :=
  toString (mockScoreTenths r / 10) ++ "." ++ toString (mockScoreTenths r % 10)

/-- One dimension score: Math.floor(Math.random() * 4) + 7 applied to
the draw r. -/
def dimScore (r : ℚ) : ℤ := (r * 4).floor + 7

/-- The scores array: Array(9).fill(null).map(() => ...). The map
callback runs nine times in index order; the overall draw having
already been consumed, callback i receives draw i + 1. -/
def scoresList (s : RandStream) : List ℤ :=
  (List.range 9).map (fun i => dimScore (s (i + 1)))

/-- The HTTP response the handler sends: either res.json(...) with the
default status 200, or res.status(400).json({ error: ... }). -/
inductive Response where
  | ok : List ℤ → String → String → Response
  | badRequest : String → Response
deriving DecidableEq

/-- HTTP status of a response: res.json defaults to 200; the error
branch sets 400 explicitly. -/
def Response.status : Response → ℕ
  | .ok _ _ _ => 200
  | .badRequest _ => 400

/-- Scores field of a response, when present. -/
def Response.scoresOf : Response → Option (List ℤ)
  | .ok sc _ _ => some sc
  | .badRequest _ => none

/-- Overall field of a response, when present. -/
def Response.overallOf : Response → Option String
  | .ok _ ov _ => some ov
  | .badRequest _ => none

/-- Reason field of a response, when present. -/
def Response.reasonOf : Response → Option String
  | .ok _ _ re => some re
  | .badRequest _ => none

/-- The POST / handler of routes/appraisal.js as a pure function of the
nftContent field and the Math.random stream. Returns the response
together with the number of random draws consumed: zero on the early
400 return, ten (one for mockScore, then nine for the scores array) on
success. -/
def handler (nftContent : JSValue) (s : RandStream) : Response × ℕ :=
  if truthy nftContent then
    (Response.ok (scoresList s) (mockScoreString (s 0))
      "Automated local appraisal complete", 10)
  else
    (Response.badRequest "NFT content required", 0)

/-- Modelled from the spec: the step order stated in §4.1, in which the
nine dimension scores are generated first (consuming draws 0 through 8)
and overallScore afterwards (consuming draw 9). Exists only to be
compared with the handler embedded from the source. -/
def handlerSpecOrder (nftContent : JSValue) (s : RandStream) : Response × ℕ :=
  if truthy nftContent then
    (Response.ok ((List.range 9).map (fun i => dimScore (s i)))
      (mockScoreString (s 9)) "Automated local appraisal complete", 10)
  else
    (Response.badRequest "NFT content required", 0)

/-- A concrete stream all of whose draws are one half. -/
def halfStream : RandStream := fun _ => 1 / 2

/-- A concrete stream whose first draw is zero and whose later draws
are one half. -/
def zeroHeadStream : RandStream := fun i => if i = 0 then 0 else 1 / 2

/-- A concrete stream agreeing with halfStream on draw 0 but differing
on a later draw. -/
def tailTweakStream : RandStream := fun i => if i = 5 then 0 else 1 / 2

/-- A string is formatted with exactly one fractional digit: it splits
as an integer part, a dot, and a single digit, with no other dot. -/
def OneFracDigit (t : String) : Prop :=
  ∃ a d, t = a ++ "." ++ d ∧ d.length = 1 ∧ '.' ∉ a.data ∧ '.' ∉ d.data

/-- Rat.floor, the executable floor used in the definitions above,
agrees with the mathematical floor on ℚ. -/
theorem ratFloor_eq_intFloor (q : ℚ) : q.floor = ⌊q⌋ :=
  (Rat.floor_def' q).trans Rat.floor_def.symm

/-- Characterization of a dimension score in terms of the draw. -/
theorem dimScore_eq_iff (k : ℤ) (r : ℚ) :
    dimScore r = k + 7 ↔ ((k : ℚ) ≤ r * 4 ∧ r * 4 < (k : ℚ) + 1) := by
  have h : dimScore r = k + 7 ↔ ⌊r * 4⌋ = k := by
    unfold dimScore
    rw [ratFloor_eq_intFloor]
    omega
  rw [h, Int.floor_eq_iff]

/-- Characterization of the tenths count in terms of the draw. -/
theorem mockScoreTenths_eq_iff (k : ℤ) (r : ℚ) :
    mockScoreTenths r = k ↔
      ((k : ℚ) ≤ 10 * (r * 3 + 7) + 1 / 2 ∧
        10 * (r * 3 + 7) + 1 / 2 < (k : ℚ) + 1) := by
  unfold mockScoreTenths toFixed1
  rw [ratFloor_eq_intFloor, Int.floor_eq_iff]

/-- Dimension scores of draws in [0, 1) lie in [7, 10]. -/
theorem dimScore_bounds (r : ℚ) (h0 : 0 ≤ r) (h1 : r < 1) :
    7 ≤ dimScore r ∧ dimScore r ≤ 10 := by
  unfold dimScore
  rw [ratFloor_eq_intFloor]
  have l : (0 : ℤ) ≤ ⌊r * 4⌋ := Int.le_floor.mpr (by push_cast; linarith)
  have u : ⌊r * 4⌋ < 4 := Int.floor_lt.mpr (by push_cast; linarith)
  omega

/-- Tenths counts of draws in [0, 1) lie in [70, 100]. -/
theorem mockScoreTenths_bounds (r : ℚ) (h0 : 0 ≤ r) (h1 : r < 1) :
    70 ≤ mockScoreTenths r ∧ mockScoreTenths r ≤ 100 := by
  unfold mockScoreTenths toFixed1
  rw [ratFloor_eq_intFloor]
  have l : (70 : ℤ) ≤ ⌊10 * (r * 3 + 7) + 1 / 2⌋ :=
    Int.le_floor.mpr (by push_cast; linarith)
  have u : ⌊10 * (r * 3 + 7) + 1 / 2⌋ < 101 :=
    Int.floor_lt.mpr (by push_cast; linarith)
  omega

/-- Rendering of a single decimal digit. -/
theorem toString_digit (k : ℤ) (h0 : 0 ≤ k) (h9 : k ≤ 9) :
    (toString k).length = 1 ∧ '.' ∉ (toString k).data := by
  interval_cases k <;> exact ⟨by decide, by decide⟩

/-- Rendering of the integer part of an overall score. -/
theorem toString_intpart (k : ℤ) (h7 : 7 ≤ k) (h10 : k ≤ 10) :
    '.' ∉ (toString k).data := by
  interval_cases k <;> decide

theorem dimScore_zero : dimScore 0 = 7 := by
  have h := (dimScore_eq_iff 0 0).mpr (by norm_num)
  simpa using h

theorem dimScore_quarter : dimScore (1 / 4) = 8 := by
  have h := (dimScore_eq_iff 1 (1 / 4)).mpr (by norm_num)
  simpa using h

theorem dimScore_half : dimScore (1 / 2) = 9 := by
  have h := (dimScore_eq_iff 2 (1 / 2)).mpr (by norm_num)
  simpa using h

theorem dimScore_threeQuarters : dimScore (3 / 4) = 10 := by
  have h := (dimScore_eq_iff 3 (3 / 4)).mpr (by norm_num)
  simpa using h

theorem dimScore_halfInv : dimScore 2⁻¹ = 9 := by
  rw [show (2⁻¹ : ℚ) = 1 / 2 from by norm_num]
  exact dimScore_half

theorem mockScoreTenths_zero : mockScoreTenths 0 = 70 :=
  (mockScoreTenths_eq_iff 70 0).mpr (by norm_num)

theorem mockScoreTenths_half : mockScoreTenths (1 / 2) = 85 :=
  (mockScoreTenths_eq_iff 85 (1 / 2)).mpr (by norm_num)

theorem mockScoreTenths_edge : mockScoreTenths (1023 / 1024) = 100 :=
  (mockScoreTenths_eq_iff 100 (1023 / 1024)).mpr (by norm_num)

theorem mockScoreString_zero : mockScoreString 0 = "7.0" := by
  unfold mockScoreString
  rw [mockScoreTenths_zero]
  decide

theorem mockScoreString_half : mockScoreString (1 / 2) = "8.5" := by
  unfold mockScoreString
  rw [mockScoreTenths_half]
  decide

theorem mockScoreString_edge : mockScoreString (1023 / 1024) = "10.0" := by
  unfold mockScoreString
  rw [mockScoreTenths_edge]
  decide

theorem halfStream_unit : UnitInterval halfStream := by
  intro i
  constructor <;> norm_num [halfStream]

theorem zeroHeadStream_unit : UnitInterval zeroHeadStream := by
  intro i
  by_cases h : i = 0
  · constructor <;> norm_num [zeroHeadStream, h]
  · constructor <;> norm_num [zeroHeadStream, h]

theorem scoresList_halfStream : scoresList halfStream = List.replicate 9 9 := by
  unfold scoresList
  rw [show List.range 9 = [0, 1, 2, 3, 4, 5, 6, 7, 8] from by decide]
  simp [halfStream, dimScore_half, dimScore_halfInv, List.replicate]

theorem scoresList_zeroHeadStream :
    scoresList zeroHeadStream = List.replicate 9 9 := by
  unfold scoresList
  rw [show List.range 9 = [0, 1, 2, 3, 4, 5, 6, 7, 8] from by decide]
  simp [zeroHeadStream, dimScore_half, dimScore_halfInv, List.replicate]

theorem handler_x_half :
    handler (.str "x") halfStream =
      (Response.ok (List.replicate 9 9) "8.5"
        "Automated local appraisal complete", 10) := by
  show (Response.ok (scoresList halfStream) (mockScoreString (1 / 2))
      "Automated local appraisal complete", 10) = _
  rw [scoresList_halfStream, mockScoreString_half]

theorem handler_x_zeroHead :
    handler (.str "x") zeroHeadStream =
      (Response.ok (List.replicate 9 9) "7.0"
        "Automated local appraisal complete", 10) := by
  show (Response.ok (scoresList zeroHeadStream) (mockScoreString 0)
      "Automated local appraisal complete", 10) = _
  rw [scoresList_zeroHeadStream, mockScoreString_zero]

theorem handlerSpecOrder_x_zeroHead :
    handlerSpecOrder (.str "x") zeroHeadStream =
      (Response.ok [7, 9, 9, 9, 9, 9, 9, 9, 9] "8.5"
        "Automated local appraisal complete", 10) := by
  show (Response.ok ((List.range 9).map (fun i => dimScore (zeroHeadStream i)))
      (mockScoreString (zeroHeadStream 9)) "Automated local appraisal complete",
      10) = _
  rw [show List.range 9 = [0, 1, 2, 3, 4, 5, 6, 7, 8] from by decide,
    show zeroHeadStream 9 = 1 / 2 from rfl, mockScoreString_half]
  simp [zeroHeadStream, dimScore_zero, dimScore_half, dimScore_halfInv]

/-- C1: for every request whose nftContent is a non-empty string, the
response has HTTP status 200 and its scores field is an ordered
sequence of exactly 9 integers, each in the closed range [7, 10]. -/
theorem C1_valid_request_scores (t : String) (ht : t ≠ "")
    (s : RandStream) (hs : UnitInterval s) :
    (handler (.str t) s).1.status = 200 ∧
    ∃ sc : List ℤ, (handler (.str t) s).1.scoresOf = some sc ∧
      sc.length = 9 ∧ ∀ x ∈ sc, 7 ≤ x ∧ x ≤ 10 := by
  have htr : truthy (.str t) = true := by simp [truthy, ht]
  refine ⟨by simp [handler, htr, Response.status], scoresList s,
    by simp [handler, htr, Response.scoresOf], by simp [scoresList], ?_⟩
  intro x hx
  simp only [scoresList, List.mem_map, List.mem_range] at hx
  obtain ⟨i, _, rfl⟩ := hx
  exact dimScore_bounds (s (i + 1)) (hs (i + 1)).1 (hs (i + 1)).2

/-- Witness for C1 at the input "x" with the all-halves stream. -/
theorem C1_witness :
    (handler (.str "x") halfStream).1.status = 200 ∧
    ∃ sc : List ℤ, (handler (.str "x") halfStream).1.scoresOf = some sc ∧
      sc.length = 9 ∧ ∀ x ∈ sc, 7 ≤ x ∧ x ≤ 10 :=
  C1_valid_request_scores "x" (by decide) halfStream halfStream_unit

/-- C2 counterexample: the draw 1023/1024 (exactly representable as an
IEEE double, and for which the JavaScript float arithmetic is exact) is
in [0, 1), yet the overall field is the string "10.0", which parses to
10, outside the half-open range [7.0, 10.0). -/
theorem C2_counterexample :
    (0 : ℚ) ≤ 1023 / 1024 ∧ (1023 / 1024 : ℚ) < 1 ∧
    (handler (.str "x") (fun _ => 1023 / 1024)).1.overallOf = some "10.0" ∧
    mockScoreValue (1023 / 1024) = 10 ∧
    ¬ mockScoreValue (1023 / 1024) < 10 := by
  have hv : mockScoreValue (1023 / 1024) = 10 := by
    unfold mockScoreValue
    rw [mockScoreTenths_edge]
    norm_num
  refine ⟨by norm_num, by norm_num, ?_, hv, by rw [hv]; norm_num⟩
  show some (mockScoreString (1023 / 1024)) = _
  rw [mockScoreString_edge]

/-- C2 (amended): for every successful call and every draw in [0, 1),
the overall field parses to a decimal in the closed range [7.0, 10.0]
(draws close enough to 1 round up to exactly 10.0) and is formatted
with exactly one fractional digit. -/
theorem C2_overall_range (v : JSValue) (s : RandStream)
    (hv : truthy v = true) (h0 : 0 ≤ s 0) (h1 : s 0 < 1) :
    (handler v s).1.overallOf = some (mockScoreString (s 0)) ∧
    7 ≤ mockScoreValue (s 0) ∧ mockScoreValue (s 0) ≤ 10 ∧
    OneFracDigit (mockScoreString (s 0)) := by
  obtain ⟨hlo, hhi⟩ := mockScoreTenths_bounds (s 0) h0 h1
  refine ⟨by simp [handler, hv, Response.overallOf], ?_, ?_, ?_⟩
  · unfold mockScoreValue
    have hc : (70 : ℚ) ≤ (mockScoreTenths (s 0) : ℚ) := by exact_mod_cast hlo
    linarith
  · unfold mockScoreValue
    have hc : (mockScoreTenths (s 0) : ℚ) ≤ 100 := by exact_mod_cast hhi
    linarith
  · obtain ⟨hd1, hd2⟩ :=
      toString_digit (mockScoreTenths (s 0) % 10) (by omega) (by omega)
    exact ⟨toString (mockScoreTenths (s 0) / 10),
      toString (mockScoreTenths (s 0) % 10), rfl, hd1,
      toString_intpart _ (by omega) (by omega), hd2⟩

/-- Witness for the amended C2 at the input "x" with the all-halves
stream. -/
theorem C2_witness :
    (handler (.str "x") halfStream).1.overallOf
        = some (mockScoreString (halfStream 0)) ∧
    7 ≤ mockScoreValue (halfStream 0) ∧ mockScoreValue (halfStream 0) ≤ 10 ∧
    OneFracDigit (mockScoreString (halfStream 0)) :=
  C2_overall_range (.str "x") halfStream (by decide)
    (halfStream_unit 0).1 (halfStream_unit 0).2

/-- C3: over the domain the spec gives the field (a string delivered by
the JSON body parser, possibly absent or null), the operation fails if
and only if nftContent is absent, null, or the empty string; on failure
it responds with HTTP 400 and body error = NFT content required, and on
every non-empty string it succeeds with status 200. -/
theorem C3_validation_iff (s : RandStream) (v : JSValue)
    (hv : v = .undef ∨ v = .null ∨ ∃ t : String, v = .str t) :
    (((handler v s).1.status = 400 ∧
        (handler v s).1 = .badRequest "NFT content required") ↔
      (v = .undef ∨ v = .null ∨ v = .str "")) ∧
    (∀ t : String, t ≠ "" → (handler (.str t) s).1.status = 200) := by
  constructor
  · rcases hv with rfl | rfl | ⟨t, rfl⟩
    · simp [handler, truthy, Response.status]
    · simp [handler, truthy, Response.status]
    · by_cases ht : t = ""
      · subst ht
        simp [handler, truthy, Response.status]
      · simp [handler, truthy, ht, Response.status]
  · intro t ht
    simp [handler, truthy, ht, Response.status]

/-- Witness for C3 at the empty string. -/
theorem C3_witness :
    (handler (.str "") halfStream).1.status = 400 ∧
    (handler (.str "") halfStream).1 = .badRequest "NFT content required" :=
  (C3_validation_iff halfStream (.str "")
    (Or.inr (Or.inr ⟨"", rfl⟩))).1.mpr (Or.inr (Or.inr rfl))

/-- C4: on every invalid request (falsy nftContent) no scoring is
performed: the randomness source is not consumed (zero draws) and the
response carries no scores, overall, or reason, only the 400 error. -/
theorem C4_no_scoring_on_invalid (v : JSValue) (s : RandStream)
    (hv : truthy v = false) :
    (handler v s).2 = 0 ∧
    (handler v s).1 = .badRequest "NFT content required" ∧
    (handler v s).1.scoresOf = none ∧
    (handler v s).1.overallOf = none ∧
    (handler v s).1.reasonOf = none := by
  simp [handler, hv, Response.scoresOf, Response.overallOf, Response.reasonOf]

/-- Witness for C4 at a null nftContent. -/
theorem C4_witness :
    (handler .null halfStream).2 = 0 ∧
    (handler .null halfStream).1 = .badRequest "NFT content required" ∧
    (handler .null halfStream).1.scoresOf = none ∧
    (handler .null halfStream).1.overallOf = none ∧
    (handler .null halfStream).1.reasonOf = none :=
  C4_no_scoring_on_invalid .null halfStream rfl

/-- C5: for every successful call, over every input and every stream of
draws, the reason field equals the fixed string
Automated local appraisal complete. -/
theorem C5_fixed_reason (v : JSValue) (s : RandStream)
    (hv : truthy v = true) :
    (handler v s).1.reasonOf = some "Automated local appraisal complete" := by
  simp [handler, hv, Response.reasonOf]

/-- Witness for C5 at the input "x" with the all-halves stream. -/
theorem C5_witness :
    (handler (.str "x") halfStream).1.reasonOf
      = some "Automated local appraisal complete" :=
  C5_fixed_reason (.str "x") halfStream (by decide)

/-- C6: the map from a uniform [0, 1) draw to a dimension score takes
exactly the values 7, 8, 9, 10; the preimage of each value v is the
interval from (v - 7)/4 to (v - 6)/4, of length exactly 1/4. -/
theorem C6_uniform_dimension_scores :
    (∀ r : ℚ, 0 ≤ r → r < 1 →
      dimScore r = 7 ∨ dimScore r = 8 ∨ dimScore r = 9 ∨ dimScore r = 10) ∧
    (∀ v : ℤ, (v = 7 ∨ v = 8 ∨ v = 9 ∨ v = 10) →
      (∀ r : ℚ, 0 ≤ r → r < 1 →
        (dimScore r = v ↔ ((v : ℚ) - 7) / 4 ≤ r ∧ r < ((v : ℚ) - 6) / 4)) ∧
      (∃ r : ℚ, 0 ≤ r ∧ r < 1 ∧ dimScore r = v) ∧
      ((v : ℚ) - 6) / 4 - ((v : ℚ) - 7) / 4 = 1 / 4) := by
  constructor
  · intro r h0 h1
    have hb := dimScore_bounds r h0 h1
    omega
  · intro v hv
    refine ⟨?_, ?_, by ring⟩
    · intro r h0 h1
      have h := dimScore_eq_iff (v - 7) r
      rw [show v - 7 + 7 = v by omega] at h
      rw [h]
      push_cast
      constructor
      · rintro ⟨a, b⟩
        constructor <;> linarith
      · rintro ⟨a, b⟩
        constructor <;> linarith
    · rcases hv with rfl | rfl | rfl | rfl
      · exact ⟨0, le_refl 0, by norm_num, dimScore_zero⟩
      · exact ⟨1 / 4, by norm_num, by norm_num, dimScore_quarter⟩
      · exact ⟨1 / 2, by norm_num, by norm_num, dimScore_half⟩
      · exact ⟨3 / 4, by norm_num, by norm_num, dimScore_threeQuarters⟩

/-- Witness for C6: the interval characterization at the draw 1/2 and
the value 9. -/
theorem C6_witness :
    dimScore (1 / 2) = 9 ↔
      ((9 : ℤ) : ℚ) - 7 ≤ (1 / 2 : ℚ) * 4 ∧ (1 / 2 : ℚ) * 4 < ((9 : ℤ) : ℚ) - 6 + 1 := by
  have h := (C6_uniform_dimension_scores.2 9 (by decide)).1 (1 / 2)
    one_half_pos.le one_half_lt_one
  rw [h]
  constructor
  · rintro ⟨a, b⟩
    constructor <;> linarith
  · rintro ⟨a, b⟩
    constructor <;> linarith

/-- C7 counterexample: with the stream whose first draw is 0 and whose
later draws are 1/2, the handler embedded from the source (overall
drawn first) and the spec-ordered variant (scores drawn first) give
different responses on the valid input "x": the source yields all-9
scores with overall "7.0", the spec order yields a leading 7 score and
overall "8.5". So the steps are not performed in the claimed order. -/
theorem C7_counterexample :
    UnitInterval zeroHeadStream ∧ truthy (.str "x") = true ∧
    (handler (.str "x") zeroHeadStream).1
      ≠ (handlerSpecOrder (.str "x") zeroHeadStream).1 := by
  refine ⟨zeroHeadStream_unit, by decide, ?_⟩
  rw [handler_x_zeroHead, handlerSpecOrder_x_zeroHead]
  decide

/-- C7 (amended): on every valid input the operation consumes exactly
ten draws, the overall score is determined by the first draw alone, the
nine dimension scores are determined by draws 1 through 9 alone, and
the fixed rationale is attached. -/
theorem C7_draw_order (v : JSValue) (hv : truthy v = true)
    (s s₂ : RandStream) :
    (handler v s).2 = 10 ∧
    (s 0 = s₂ 0 →
      (handler v s).1.overallOf = (handler v s₂).1.overallOf) ∧
    ((∀ i, 1 ≤ i → i ≤ 9 → s i = s₂ i) →
      (handler v s).1.scoresOf = (handler v s₂).1.scoresOf) ∧
    (handler v s).1.reasonOf = some "Automated local appraisal complete" := by
  refine ⟨by simp [handler, hv], ?_, ?_, by simp [handler, hv, Response.reasonOf]⟩
  · intro h
    simp [handler, hv, Response.overallOf, h]
  · intro h
    simp only [handler, hv, if_true, Response.scoresOf, Option.some.injEq]
    unfold scoresList
    refine List.map_congr_left ?_
    intro i hi
    rw [List.mem_range] at hi
    rw [h (i + 1) (by omega) (by omega)]

/-- Witness for the amended C7: ten draws on "x", and two streams equal
on draws 1 through 9 give equal scores. -/
theorem C7_witness :
    (handler (.str "x") halfStream).2 = 10 ∧
    (handler (.str "x") halfStream).1.scoresOf
      = (handler (.str "x") zeroHeadStream).1.scoresOf :=
  ⟨(C7_draw_order (.str "x") (by decide) halfStream zeroHeadStream).1,
   (C7_draw_order (.str "x") (by decide) halfStream zeroHeadStream).2.2.1
     (fun i h1 _ => by
       have hne : i ≠ 0 := by omega
       simp [halfStream, zeroHeadStream, hne])⟩

/-- C8: the overall score is computed from its own draw only — any two
streams with the same first draw give the same overall — and it is not
a deterministic function of the dimension scores: two legal streams
produce identical scores yet different overall values. -/
theorem C8_overall_independent :
    (∀ (v : JSValue) (s s₂ : RandStream), truthy v = true → s 0 = s₂ 0 →
      (handler v s).1.overallOf = (handler v s₂).1.overallOf) ∧
    (∃ s s₂ : RandStream, UnitInterval s ∧ UnitInterval s₂ ∧
      (handler (.str "x") s).1.scoresOf
        = (handler (.str "x") s₂).1.scoresOf ∧
      (handler (.str "x") s).1.overallOf
        ≠ (handler (.str "x") s₂).1.overallOf) := by
  constructor
  · intro v s s₂ hv h
    simp [handler, hv, Response.overallOf, h]
  · refine ⟨halfStream, zeroHeadStream, halfStream_unit, zeroHeadStream_unit,
      ?_, ?_⟩
    · rw [handler_x_half, handler_x_zeroHead]
      rfl
    · rw [handler_x_half, handler_x_zeroHead]
      decide

/-- Witness for C8: two streams sharing their first draw give the same
overall field. -/
theorem C8_witness :
    (handler (.str "x") halfStream).1.overallOf
      = (handler (.str "x") tailTweakStream).1.overallOf :=
  C8_overall_independent.1 (.str "x") halfStream tailTweakStream
    (by decide) rfl

/-- C9: the operation is non-deterministic across calls with identical
valid input: for the non-empty input "x" there are two legal randomness
states under which the two successful (status 200) responses differ. -/
theorem C9_nondeterminism :
    ∃ t : String, t ≠ "" ∧ ∃ s s₂ : RandStream,
      UnitInterval s ∧ UnitInterval s₂ ∧
      (handler (.str t) s).1.status = 200 ∧
      (handler (.str t) s₂).1.status = 200 ∧
      (handler (.str t) s).1 ≠ (handler (.str t) s₂).1 := by
  refine ⟨"x", by decide, halfStream, zeroHeadStream, halfStream_unit,
    zeroHeadStream_unit, ?_, ?_, ?_⟩
  · rw [handler_x_half]
    rfl
  · rw [handler_x_zeroHead]
    rfl
  · rw [handler_x_half, handler_x_zeroHead]
    decide

/-- C10: validation is JavaScript truthiness on nftContent, not a
string check — every falsy value (undefined, null, empty string, the
number 0, false, NaN) is rejected with the 400 error, and every truthy
value of any type (non-zero numbers, objects, arrays, non-empty
strings) is accepted with status 200. -/
theorem C10_truthiness_validation (v : JSValue) (s : RandStream) :
    (truthy v = false →
      (handler v s).1 = .badRequest "NFT content required" ∧
      (handler v s).1.status = 400) ∧
    (truthy v = true → (handler v s).1.status = 200) ∧
    truthy .undef = false ∧ truthy .null = false ∧
    truthy (.str "") = false ∧ truthy (.number 0) = false ∧
    truthy (.boolean false) = false ∧ truthy .nan = false ∧
    (∀ q : ℚ, q ≠ 0 → truthy (.number q) = true) ∧
    (∀ t : String, t ≠ "" → truthy (.str t) = true) ∧
    truthy .object = true ∧ truthy .array = true := by
  refine ⟨?_, ?_, rfl, rfl, by decide, ?_, rfl, rfl, ?_, ?_, rfl, rfl⟩
  · intro h
    simp [handler, h, Response.status]
  · intro h
    simp [handler, h, Response.status]
  · simp [truthy]
  · intro q hq
    simp [truthy, hq]
  · intro t ht
    simp [truthy, ht]

/-- Witness for C10: the falsy number 0 is rejected with the 400 error
body. -/
theorem C10_witness :
    (handler (.number 0) halfStream).1 = .badRequest "NFT content required" ∧
    (handler (.number 0) halfStream).1.status = 400 :=
  (C10_truthiness_validation (.number 0) halfStream).1 (by simp [truthy])
